import Mathlib

/-!
Verification development for the Sales Engine backend's Progressive
Qualification Engine.  The Python services are shallowly embedded:

* Python values occurring in fact sets are modelled by `PyVal`
  (None / str / int / bool / list / dict).  The only list- and
  dict-valued data this engine ever stores are lists of strings
  (pain points) and string-keyed mappings, so list elements are
  `String`; Python truthiness is `PyVal.truthy` and the membership
  test `value in ["", [], {}]` is `PyVal.emptyish`.
* Python dicts are modelled as association lists (`Dict`) with
  first-match lookup, in-place update and ordered iteration, matching
  `dict.get`, `d[k] = v` and `d.items()` on dicts with unique keys.
* Python floats used by the completeness and readiness code are
  modelled as exact rationals; the decimal weight literals of the
  source are exactly representable.
* `datetime` arithmetic in the session manager is modelled in integer
  seconds; `timedelta.seconds` (the sub-day component) is `emod 86400`.
-/

inductive PyVal where
  | none : PyVal
  | str : String → PyVal
  | int : Int → PyVal
  | bool : Bool → PyVal
  | list : List String → PyVal
  | dict : List (String × String) → PyVal
deriving Repr, DecidableEq

/-- Python truthiness: `bool(value)`. -/
def PyVal.truthy : PyVal → Bool
  | .none => false
  | .str s => s ≠ ""
  | .int n => n ≠ 0
  | .bool b => b
  | .list xs => !xs.isEmpty
  | .dict xs => !xs.isEmpty

/-- The test `value in ["", [], {}]` of `merge_extractions`: in Python only
the empty string, empty list and empty mapping compare equal to one of the
three sentinels (ints and bools never do). -/
def PyVal.emptyish : PyVal → Bool
  | .str s => s = ""
  | .list xs => xs.isEmpty
  | .dict xs => xs.isEmpty
  | _ => false

/-- The guard `value is not None and value not in ["", [], {}]` of
`merge_extractions`, the source's notion of a meaningful new value. -/
def PyVal.meaningful : PyVal → Bool
  | .none => false
  | v => !v.emptyish

/-- Python `len(value)` for the sized values, `Option.none` where Python
would raise `TypeError`. -/
def pyLen : PyVal → Option Nat
  | .str s => some s.length
  | .list xs => some xs.length
  | .dict xs => some xs.length
  | _ => Option.none

/-- A Python dict as an association list in insertion order. -/
abbrev Dict := List (String × PyVal)

/-- First binding of `k`, if any (Python key lookup). -/
def dictGet : Dict → String → Option PyVal
  | [], _ => Option.none
  | p :: rest, k => if p.1 = k then some p.2 else dictGet rest k

/-- Python `d.get(k)` (default `None`). -/
def getD (d : Dict) (k : String) : PyVal :=
  (dictGet d k).getD PyVal.none

/-- Python `d.get(k, dflt)`. -/
def getDef (d : Dict) (k : String) (dflt : PyVal) : PyVal :=
  (dictGet d k).getD dflt

/-- Python `d[k] = v`: replace the binding of `k` in place, else append. -/
def dictSet : Dict → String → PyVal → Dict
  | [], k, v => [(k, v)]
  | p :: rest, k, v => if p.1 = k then (k, v) :: rest else p :: dictSet rest k v

/-- Keys of a dict are pairwise distinct, as for a real Python dict. -/
def keysNodup (d : Dict) : Prop := (d.map Prod.fst).Nodup

/-- Python `list` payload of a value (`set(...)` is only ever applied to
lists in the fact sets this development quantifies over; see the pain-point
well-formedness predicates below). -/
def asList : PyVal → List String
  | .list xs => xs
  | _ => []

/-- Python `value or []` as it appears in `merge_extractions`. -/
def orEmptyList (v : PyVal) : PyVal :=
  if v.truthy then v else .list []

/-- Python `list(set(e) | set(n))` up to element order: one occurrence of
each element of `e ++ n`. -/
def painUnion (e n : List String) : List String := (e ++ n).dedup

/-- One iteration of the `for key, value in new.items()` loop of
`DataExtractorService.merge_extractions`; `existing` is the dict the loop
reads, `merged` the dict it writes. -/
def mergeStep (existing : Dict) (merged : Dict) (kv : String × PyVal) : Dict :=
  if kv.1 = "pain_points" then
    dictSet merged "pain_points"
      (.list (painUnion (asList (getDef existing "pain_points" (.list [])))
        (asList (orEmptyList kv.2))))
  else if kv.2.meaningful then
    if !(getD existing kv.1).truthy || (getD existing kv.1).emptyish then
      dictSet merged kv.1 kv.2
    else
      merged
  else
    merged

/-- `DataExtractorService.merge_extractions`: start from a copy of
`existing` and fold the loop body over `new.items()`. -/
def merge_extractions (existing new : Dict) : Dict :=
  new.foldl (mergeStep existing) existing

/-- `DataExtractorService._empty_extraction`. -/
def emptyExtraction : Dict :=
  [("visitor_name", .none), ("visitor_email", .none), ("company", .none),
   ("role", .none), ("team_size", .none), ("current_solution", .none),
   ("pain_points", .list []), ("budget_indication", .none), ("urgency", .none)]

/-- Well-formedness of the existing fact set's pain points: absent or a
list (`set(existing.get("pain_points", []))` would raise on any other
present value). -/
def painOKexisting (d : Dict) : Bool :=
  match dictGet d "pain_points" with
  | Option.none => true
  | some (.list _) => true
  | some _ => false

/-- Well-formedness of the new extraction's pain points: absent, a list, or
falsy (`set(value or [])` would raise on a truthy non-list value other than
a string, and a truthy string would be split into characters, which no
extraction produces). -/
def painOKnew (d : Dict) : Bool :=
  match dictGet d "pain_points" with
  | Option.none => true
  | some (.list _) => true
  | some v => !v.truthy

/-- Pain-point list stored in a fact set, `[]` when absent
(`existing.get("pain_points", [])`). -/
def painList (d : Dict) : List String :=
  asList (getDef d "pain_points" (.list []))

/-- Pain points contributed by a new extraction: `set(value or [])` when
the key is present, nothing when it is absent. -/
def newPainList (d : Dict) : List String :=
  match dictGet d "pain_points" with
  | Option.none => []
  | some v => asList (orEmptyList v)

/-- The condition under which the merge adopts the new value of a
non-pain-point field: the new value is meaningful and the existing value is
falsy (or one of the empty sentinels, which is subsumed by falsiness but
kept as the source writes it). -/
def newWins (nv : Option PyVal) (ev : PyVal) : Bool :=
  (match nv with | some v => v.meaningful | Option.none => false) &&
    (!ev.truthy || ev.emptyish)

/-- Weight table of `DataExtractorService.calculate_completeness`, in
source iteration order, as exact rationals. -/
def completeness_weights : List (String × ℚ) :=
  [("team_size", 0.30), ("current_solution", 0.25), ("pain_points", 0.20),
   ("company", 0.10), ("visitor_name", 0.10), ("visitor_email", 0.15),
   ("role", 0.025), ("budget_indication", 0.025)]

/-- The accumulation loop of `calculate_completeness`: for each weighted
field, `pain_points` contributes iff its value is truthy with positive
length, any other field iff its value is not `None`. -/
def completeness_raw (data : Dict) : ℚ :=
  completeness_weights.foldl
    (fun score fw =>
      if fw.1 = "pain_points" then
        if (getD data fw.1).truthy = true ∧
            0 < (pyLen (getD data fw.1)).getD 0 then score + fw.2 else score
      else if getD data fw.1 ≠ PyVal.none then score + fw.2 else score)
    0

/-- `DataExtractorService.calculate_completeness`: the weighted sum capped
with `min(score, 1.0)`. -/
def calculate_completeness (data : Dict) : ℚ :=
  min (completeness_raw data) 1

/-- `DataExtractorService.is_ready_to_qualify`: requires a non-None email
and completeness at least 0.6; `message_count` is only logged. -/
def is_ready_to_qualify (completeness : ℚ) (data : Dict)
    (message_count : Nat) : Bool :=
  let has_email : Bool := getD data "visitor_email" != PyVal.none
  if !has_email then false
  else if completeness < 0.6 then false
  else true

/-- A scalar field is present in the claims' sense: not null/absent. -/
def presentField (d : Dict) (f : String) : Prop := getD d f ≠ PyVal.none

instance (d : Dict) (f : String) : Decidable (presentField d f) := by
  unfold presentField
  infer_instance

/-- Pain points are present in the claims' sense: the stored value is a
non-empty list. -/
def painNonempty (d : Dict) : Prop :=
  match getD d "pain_points" with
  | .list xs => xs ≠ []
  | _ => False

instance (d : Dict) : Decidable (painNonempty d) := by
  unfold painNonempty
  cases getD d "pain_points" <;> dsimp only <;> infer_instance

/-- Well-formedness for the completeness scorer: the stored `pain_points`
value is absent/null or a list (`len(value)` would raise on a truthy
unsized value, and string or mapping values never occur there). -/
def painOKcompleteness (d : Dict) : Bool :=
  match getD d "pain_points" with
  | .none => true
  | .list _ => true
  | _ => false

/-- Deletion of a key, used to state what a field contributes to the
completeness score. -/
def dictRemove (d : Dict) (k : String) : Dict :=
  d.filter (fun p => p.1 != k)

instance (d : Dict) : Decidable (keysNodup d) := by
  unfold keysNodup
  infer_instance

def exC1existing : Dict := [("visitor_email", PyVal.str "a@b.c")]

def exC1new : Dict := [("visitor_email", PyVal.str "x@y.z")]

def exC6existing : Dict := [("pain_points", PyVal.list ["slow reporting"])]

def exC6new : Dict := [("pain_points", PyVal.list ["manual data entry"])]

def exC7 : Dict :=
  [("visitor_name", PyVal.str "Jane"), ("pain_points", PyVal.list ["slow"])]

def exC4 : Dict :=
  [("team_size", PyVal.int 12), ("visitor_email", PyVal.str "j@acme.co"),
   ("pain_points", PyVal.list ["manual work"])]

def exC10 : Dict := [("visitor_email", PyVal.str "")]

/-- `ConversationManager.determine_stage`: ordered rules over the message
count, the accumulated fact-set mapping and the detected-intent mapping
(`intent.get('intent')`). -/
def determine_stage (message_count : Nat) (extracted_data : Dict)
    (intent : Dict) : String :=
  if message_count = 1 then "greeting"
  else if (getD intent "intent" = PyVal.str "product_inquiry" ∨
      getD intent "intent" = PyVal.str "problem_statement") ∧
      extracted_data ≠ [] then
    if 3 ≤ extracted_data.length then "qualification" else "discovery"
  else if getD intent "intent" = PyVal.str "browsing" then "engagement"
  else if getD intent "intent" = PyVal.str "pricing" then "closing"
  else "discovery"

/-- Number of populated fields of a fact set in the claim's sense: entries
whose value is meaningful (not null, not empty string/list/mapping). -/
def populatedCount (d : Dict) : Nat :=
  (d.filter (fun p => p.2.meaningful)).length

/-- Intent is one of the two qualification-driving values. -/
def pqIntent (intent : Dict) : Prop :=
  getD intent "intent" = PyVal.str "product_inquiry" ∨
    getD intent "intent" = PyVal.str "problem_statement"

def exC8data : Dict :=
  [("visitor_name", PyVal.str "Bob"), ("company", PyVal.str "Acme"),
   ("pain_points", PyVal.list [])]

def exC8intent : Dict := [("intent", PyVal.str "product_inquiry")]

/-- `GroqAnalysisResult` (pydantic model): the literal string fields the
scorer reads, plus the remaining fields of the model. -/
structure GroqAnalysisResult where
  sentiment : String
  intent : String
  budget_signal : String
  pain_points : List String
  recommended_action : String
  competitor_mentioned : Option String
deriving Repr, DecidableEq

/-- Python `table.get(key, 0)` over the literal score dicts of
`calculate_lead_score`. -/
def scoreLookup (table : List (String × Int)) (k : String) : Int :=
  ((table.find? (fun p => p.1 == k)).map Prod.snd).getD 0

def budget_scores : List (String × Int) :=
  [("High", 40), ("Medium", 25), ("Low", 10), ("Null", 0)]

def intent_scores : List (String × Int) :=
  [("Buying", 30), ("Researching", 20), ("Browsing", 10), ("Support", 5)]

def sentiment_scores : List (String × Int) :=
  [("Positive", 20), ("Neutral", 10), ("Frustrated", 15), ("Negative", 5)]

structure LeadScoreResult where
  score : Int
  category : String
  priority : String
deriving Repr, DecidableEq

/-- `GroqEngine.calculate_lead_score`: additive scoring over budget,
intent, sentiment, capped pain-point credit and capped visit bonus, total
clamped at 100, with score-derived category/priority and the Frustrated
priority override. -/
def calculate_lead_score (analysis : GroqAnalysisResult)
    (visit_count : Int) : LeadScoreResult :=
  let score : Int := 0
  let score := score + scoreLookup budget_scores analysis.budget_signal
  let score := score + scoreLookup intent_scores analysis.intent
  let score := score + scoreLookup sentiment_scores analysis.sentiment
  let pain_score : Int := min ((analysis.pain_points.length : Int) * 5) 10
  let score := score + pain_score
  let visit_bonus : Int := min ((visit_count - 1) * 5) 15
  let score := score + visit_bonus
  let score := min score 100
  let category :=
    if 80 ≤ score then "Hot" else if 50 ≤ score then "Warm" else "Cold"
  let priority0 :=
    if 80 ≤ score then "High" else if 50 ≤ score then "Medium" else "Low"
  let priority :=
    if analysis.sentiment = "Frustrated" then "High" else priority0
  { score := score, category := category, priority := priority }

/-- Budget points as the claim tabulates them. -/
def budgetPoints (b : String) : Int :=
  if b = "High" then 40 else if b = "Medium" then 25
  else if b = "Low" then 10 else 0

/-- Intent points as the claim tabulates them. -/
def intentPoints (i : String) : Int :=
  if i = "Buying" then 30 else if i = "Researching" then 20
  else if i = "Browsing" then 10 else if i = "Support" then 5 else 0

/-- Sentiment points as the claim tabulates them. -/
def sentimentPoints (s : String) : Int :=
  if s = "Positive" then 20 else if s = "Frustrated" then 15
  else if s = "Neutral" then 10 else if s = "Negative" then 5 else 0

def exC5 : GroqAnalysisResult :=
  { sentiment := "Frustrated", intent := "Buying", budget_signal := "High",
    pain_points := ["p1", "p2", "p3"], recommended_action := "Escalate",
    competitor_mentioned := Option.none }

def exC9 : GroqAnalysisResult :=
  { sentiment := "Neutral", intent := "Support", budget_signal := "Null",
    pain_points := [], recommended_action := "Nurture",
    competitor_mentioned := Option.none }

/-- A stored `visitor_sessions` document (`VisitorSession` fields the
session manager reads and writes, plus `oid` for Mongo's `_id`). -/
structure SessionRec where
  oid : Nat
  visitor_id : String
  user_id : Option String
  session_id : String
  visit_number : Nat
  start_time : Int
  last_message_time : Int
  messages : List String
  extracted_data : Dict
  status : String
deriving Repr, DecidableEq

/-- The Mongo query of `get_or_create_session`: `visitor_id` always,
`user_id` only when the caller passed one. -/
def matchesQuery (visitor_id : String) (user_id : Option String)
    (s : SessionRec) : Bool :=
  s.visitor_id == visitor_id &&
    (match user_id with
     | Option.none => true
     | some u => s.user_id == some u)

/-- `find_one(query, sort=[("last_message_time", -1)])`: the matching
record with the greatest `last_message_time`. -/
def findRecent (db : List SessionRec) (visitor_id : String)
    (user_id : Option String) : Option SessionRec :=
  (db.filter (matchesQuery visitor_id user_id)).foldl
    (fun acc s =>
      match acc with
      | Option.none => some s
      | some b =>
          if b.last_message_time < s.last_message_time then some s
          else some b)
    Option.none

/-- Python `timedelta.seconds` of a span given in seconds: the sub-day
component, the whole days being discarded.  The source computes
`(datetime.utcnow() - last_message_time).seconds / 60` and compares the
result with the 30-minute threshold, so the comparison `time_diff > 30`
is `1800 < tdSeconds elapsed`. -/
def tdSeconds (elapsed : Int) : Int := elapsed % 86400

/-- `SessionManager.get_or_create_session`, state passed explicitly: given
the stored sessions, the visitor/session identifiers, the current time in
seconds and a fresh object id, returns the session handed to the caller,
the `is_new_visit` flag, and the updated store.  Continuing a session,
expiring plus recreating, and the first-ever visit follow the source;
`visit_number` of a recreated session is the count of that visitor's
expired-or-completed rows after archiving, plus one. -/
def get_or_create_session (db : List SessionRec)
    (visitor_id session_id : String) (user_id : Option String) (now : Int)
    (newOid : Nat) : SessionRec × Bool × List SessionRec :=
  match findRecent db visitor_id user_id with
  | some recent =>
    if 1800 < tdSeconds (now - recent.last_message_time) then
      let db1 := db.map (fun s =>
        if s.oid = recent.oid then { s with status := "expired" } else s)
      let visit_count := (db1.filter (fun s =>
        s.visitor_id == visitor_id &&
          (s.status == "expired" || s.status == "completed"))).length
      let newS : SessionRec :=
        { oid := newOid, visitor_id := visitor_id, user_id := user_id,
          session_id := session_id, visit_number := visit_count + 1,
          start_time := now, last_message_time := now, messages := [],
          extracted_data := [], status := "active" }
      (newS, true, db1 ++ [newS])
    else
      (recent, false, db)
  | Option.none =>
    let newS : SessionRec :=
      { oid := newOid, visitor_id := visitor_id, user_id := user_id,
        session_id := session_id, visit_number := 1, start_time := now,
        last_message_time := now, messages := [], extracted_data := [],
        status := "active" }
    (newS, true, db ++ [newS])

/-- A prior session of visitor `v1` whose last message was at time 0. -/
def exSession : SessionRec :=
  { oid := 1, visitor_id := "v1", user_id := Option.none,
    session_id := "s1", visit_number := 1, start_time := 0,
    last_message_time := 0, messages := ["Hi"],
    extracted_data := [("visitor_name", PyVal.str "Jane")],
    status := "active" }

lemma dictGet_dictSet_self (d : Dict) (k : String) (v : PyVal) :
    dictGet (dictSet d k v) k = some v := by
  induction d with
  | nil => simp [dictSet, dictGet]
  | cons p rest ih =>
    by_cases h : p.1 = k
    · simp [dictSet, h, dictGet]
    · simp [dictSet, h, dictGet, ih]

lemma dictGet_dictSet_ne (d : Dict) (k f : String) (v : PyVal) (h : f ≠ k) :
    dictGet (dictSet d k v) f = dictGet d f := by
  induction d with
  | nil => simp [dictSet, dictGet, Ne.symm h]
  | cons p rest ih =>
    by_cases hp : p.1 = k
    · simp [dictSet, hp, dictGet, Ne.symm h]
    · simp [dictSet, hp, dictGet, ih]

lemma mergeStep_get_ne (E acc : Dict) (kv : String × PyVal) (f : String)
    (h : kv.1 ≠ f) :
    dictGet (mergeStep E acc kv) f = dictGet acc f := by
  unfold mergeStep
  split
  next hpain =>
    exact dictGet_dictSet_ne _ _ _ _ (fun hf => h (hpain.trans hf.symm))
  next =>
    split
    · split
      · exact dictGet_dictSet_ne _ _ _ _ (Ne.symm h)
      · rfl
    · rfl

lemma foldl_mergeStep_get_notin (E : Dict) (N : List (String × PyVal))
    (acc : Dict) (f : String) (h : ∀ p ∈ N, p.1 ≠ f) :
    dictGet (N.foldl (mergeStep E) acc) f = dictGet acc f := by
  induction N generalizing acc with
  | nil => rfl
  | cons kv N ih =>
    rw [List.foldl_cons, ih _ (fun p hp => h p (List.mem_cons_of_mem _ hp)),
      mergeStep_get_ne]
    exact h kv (List.mem_cons_self _ _)

lemma merge_foldl_get (E : Dict) (N : List (String × PyVal)) (acc : Dict)
    (f : String) (hf : f ≠ "pain_points") (hN : (N.map Prod.fst).Nodup) :
    dictGet (N.foldl (mergeStep E) acc) f =
      if newWins (dictGet N f) (getD E f) then dictGet N f
      else dictGet acc f := by
  induction N generalizing acc with
  | nil => simp [dictGet, newWins]
  | cons kv N ih =>
    obtain ⟨k, v⟩ := kv
    rw [List.map_cons, List.nodup_cons] at hN
    by_cases hk : k = f
    · subst hk
      have hnotin : ∀ p ∈ N, p.1 ≠ k := by
        intro p hp hpf
        have hmem : p.1 ∈ N.map Prod.fst := List.mem_map_of_mem Prod.fst hp
        rw [hpf] at hmem
        exact hN.1 hmem
      rw [List.foldl_cons, foldl_mergeStep_get_notin E N _ k hnotin]
      have hget : dictGet ((k, v) :: N) k = some v := by simp [dictGet]
      rw [hget]
      simp only [mergeStep, newWins, hf, if_false]
      rcases Bool.eq_false_or_eq_true v.meaningful with hm | hm <;>
        rcases Bool.eq_false_or_eq_true
          (!(getD E k).truthy || (getD E k).emptyish) with hc | hc <;>
        simp [hm, hc, dictGet_dictSet_self]
    · rw [List.foldl_cons, ih _ hN.2,
        mergeStep_get_ne E acc (k, v) f hk]
      have hget : dictGet ((k, v) :: N) f = dictGet N f := by simp [dictGet, hk]
      rw [hget]

lemma merge_foldl_get_pain (E : Dict) (N : List (String × PyVal)) (acc : Dict)
    (hN : (N.map Prod.fst).Nodup) :
    dictGet (N.foldl (mergeStep E) acc) "pain_points" =
      (match dictGet N "pain_points" with
       | Option.none => dictGet acc "pain_points"
       | some v =>
           some (.list (painUnion (painList E) (asList (orEmptyList v))))) := by
  induction N generalizing acc with
  | nil => rfl
  | cons kv N ih =>
    obtain ⟨k, v⟩ := kv
    rw [List.map_cons, List.nodup_cons] at hN
    by_cases hk : k = "pain_points"
    · subst hk
      have hnotin : ∀ p ∈ N, p.1 ≠ "pain_points" := by
        intro p hp hpf
        have hmem : p.1 ∈ N.map Prod.fst := List.mem_map_of_mem Prod.fst hp
        rw [hpf] at hmem
        exact hN.1 hmem
      rw [List.foldl_cons, foldl_mergeStep_get_notin E N _ _ hnotin]
      simp [mergeStep, dictGet, dictGet_dictSet_self, painList]
    · rw [List.foldl_cons, ih _ hN.2, mergeStep_get_ne E acc (k, v) _ hk]
      have hget : dictGet ((k, v) :: N) "pain_points" = dictGet N "pain_points" := by
        simp [dictGet, hk]
      rw [hget]

/-- On any truthy value, the empty-sentinel membership test is false. -/
lemma truthy_not_emptyish (v : PyVal) (h : v.truthy = true) :
    v.emptyish = false := by
  cases v <;> simp_all [PyVal.truthy, PyVal.emptyish]

/-- The all-null empty extraction has no meaningful value at any key. -/
lemma emptyExtraction_not_meaningful (f : String) :
    (match dictGet emptyExtraction f with
     | some v => v.meaningful
     | Option.none => false) = false := by
  simp only [emptyExtraction, dictGet]
  split_ifs <;> rfl

/-- C1 counterexample: the claim says a non-empty (not null, not empty
string/list/mapping) scalar field of `existing` is never replaced, but
`merge_extractions` replaces any Python-falsy existing value, and the
integer `0` is not null and not an empty string/list/mapping yet is falsy:
merging `{team_size: 0}` with `{team_size: 5}` yields `team_size = 5`. -/
theorem merge_extractions_replaces_zero_team_size :
    PyVal.meaningful (.int 0) = true ∧
    dictGet (merge_extractions [("team_size", PyVal.int 0)]
        [("team_size", PyVal.int 5)]) "team_size" = some (PyVal.int 5) := by
  decide

/-- C1 (amended): for every field `f` other than `pain_points`, if the
existing value is truthy (Python truthiness, which is what the source's
`not existing_value` tests — so `0` and `False` count as empty in addition
to null and empty string/list/mapping) it is kept; in general the merged
field takes the new value exactly when the new value is meaningful (not
null, not empty string/list/mapping) and the existing value is falsy, and
otherwise keeps the existing value. -/
theorem merge_extractions_scalar_field_rule (E N : Dict) (f : String)
    (hf : f ≠ "pain_points") (hN : keysNodup N)
    (hE : painOKexisting E = true) (hn : painOKnew N = true) :
    ((getD E f).truthy = true →
      dictGet (merge_extractions E N) f = dictGet E f) ∧
    dictGet (merge_extractions E N) f =
      (if newWins (dictGet N f) (getD E f) then dictGet N f
       else dictGet E f) := by
  have hmain := merge_foldl_get E N E f hf hN
  refine ⟨?_, hmain⟩
  intro htr
  unfold merge_extractions
  rw [hmain, if_neg ?_]
  simp [newWins, htr, truthy_not_emptyish _ htr]

/-- Witness for C1 (amended) at a concrete pair of fact sets: an email
already present is preserved. -/
theorem merge_extractions_scalar_field_rule_wit :
    ("visitor_email" ≠ "pain_points") ∧ keysNodup exC1new ∧
    painOKexisting exC1existing = true ∧ painOKnew exC1new = true ∧
    (((getD exC1existing "visitor_email").truthy = true →
        dictGet (merge_extractions exC1existing exC1new) "visitor_email" =
          dictGet exC1existing "visitor_email") ∧
      dictGet (merge_extractions exC1existing exC1new) "visitor_email" =
        (if newWins (dictGet exC1new "visitor_email")
            (getD exC1existing "visitor_email") then
          dictGet exC1new "visitor_email"
         else dictGet exC1existing "visitor_email")) :=
  ⟨by decide, by decide, by decide, by decide,
    merge_extractions_scalar_field_rule exC1existing exC1new "visitor_email"
      (by decide) (by decide) (by decide) (by decide)⟩

/-- C6: the pain points of the merged fact set, viewed as a set, are
exactly the union of the existing and the new pain points (the new
contribution being empty when the new extraction's `pain_points` entry is
null or absent). -/
theorem merge_extractions_pain_points_union (E N : Dict) (hN : keysNodup N)
    (hE : painOKexisting E = true) (hn : painOKnew N = true) (x : String) :
    x ∈ painList (merge_extractions E N) ↔
      x ∈ painList E ∨ x ∈ newPainList N := by
  have hmain := merge_foldl_get_pain E N E hN
  unfold merge_extractions
  cases hcase : dictGet N "pain_points" with
  | none =>
    rw [hcase] at hmain
    have hPL : painList (List.foldl (mergeStep E) E N) = painList E := by
      simp [painList, getDef, hmain]
    rw [hPL]
    simp [newPainList, hcase]
  | some v =>
    rw [hcase] at hmain
    have hPL : painList (List.foldl (mergeStep E) E N) =
        painUnion (painList E) (asList (orEmptyList v)) := by
      simp [painList, getDef, hmain, asList]
    rw [hPL]
    simp [painUnion, List.mem_dedup, newPainList, hcase]

/-- Witness for C6 at a concrete pair of fact sets. -/
theorem merge_extractions_pain_points_union_wit :
    keysNodup exC6new ∧ painOKexisting exC6existing = true ∧
    painOKnew exC6new = true ∧
    ("slow reporting" ∈ painList (merge_extractions exC6existing exC6new) ↔
      "slow reporting" ∈ painList exC6existing ∨
        "slow reporting" ∈ newPainList exC6new) :=
  ⟨by decide, by decide, by decide,
    merge_extractions_pain_points_union exC6existing exC6new (by decide)
      (by decide) (by decide) "slow reporting"⟩

/-- C7 counterexample: merging with the empty extraction is not the
identity, because the source rebuilds `pain_points` as
`list(set(existing) | set(new))`, which drops duplicates (and fixes no
order): a fact set whose pain-point list is `["a", "a"]` comes back with
pain points `["a"]`. -/
theorem merge_extractions_empty_not_identity :
    merge_extractions [("pain_points", PyVal.list ["a", "a"])]
        emptyExtraction
      ≠ [("pain_points", PyVal.list ["a", "a"])] := by
  decide

/-- C7 (amended): merging a fact set with the all-null empty extraction
leaves every field other than `pain_points` unchanged, and leaves
`pain_points` unchanged as a set (the stored list is deduplicated and its
order is unspecified in the source, since it round-trips through a Python
set). -/
theorem merge_extractions_empty_identity (E : Dict)
    (hE : painOKexisting E = true) :
    (∀ f, f ≠ "pain_points" →
      dictGet (merge_extractions E emptyExtraction) f = dictGet E f) ∧
    (∀ x, x ∈ painList (merge_extractions E emptyExtraction) ↔
      x ∈ painList E) := by
  have hN : keysNodup emptyExtraction := by decide
  constructor
  · intro f hf
    have h := merge_foldl_get E emptyExtraction E f hf hN
    unfold merge_extractions
    rw [h, if_neg ?_]
    simp [newWins, emptyExtraction_not_meaningful f]
  · intro x
    have h := merge_foldl_get_pain E emptyExtraction E hN
    have hget : dictGet emptyExtraction "pain_points" = some (PyVal.list []) := by
      decide
    rw [hget] at h
    unfold merge_extractions
    simp only [painList, getDef, h]
    simp [painUnion, asList, orEmptyList, PyVal.truthy, List.mem_dedup,
      painList, getDef]

/-- Witness for C7 (amended) at a concrete fact set. -/
theorem merge_extractions_empty_identity_wit :
    painOKexisting exC7 = true ∧
    ((∀ f, f ≠ "pain_points" →
        dictGet (merge_extractions exC7 emptyExtraction) f = dictGet exC7 f) ∧
      (∀ x, x ∈ painList (merge_extractions exC7 emptyExtraction) ↔
        x ∈ painList exC7)) :=
  ⟨by decide, merge_extractions_empty_identity exC7 (by decide)⟩

lemma ite_add_shift (c : Prop) [inst : Decidable c] (a w : ℚ) :
    (if c then a + w else a) = a + (if c then w else 0) := by
  split_ifs <;> ring

/-- The completeness accumulation loop, written as a closed sum. -/
lemma completeness_raw_expand (D : Dict) :
    completeness_raw D =
      (if getD D "team_size" ≠ PyVal.none then (0.30 : ℚ) else 0) +
      (if getD D "current_solution" ≠ PyVal.none then (0.25 : ℚ) else 0) +
      (if (getD D "pain_points").truthy = true ∧
          0 < (pyLen (getD D "pain_points")).getD 0 then (0.20 : ℚ) else 0) +
      (if getD D "company" ≠ PyVal.none then (0.10 : ℚ) else 0) +
      (if getD D "visitor_name" ≠ PyVal.none then (0.10 : ℚ) else 0) +
      (if getD D "visitor_email" ≠ PyVal.none then (0.15 : ℚ) else 0) +
      (if getD D "role" ≠ PyVal.none then (0.025 : ℚ) else 0) +
      (if getD D "budget_indication" ≠ PyVal.none then (0.025 : ℚ) else 0) := by
  simp only [completeness_raw, completeness_weights, List.foldl_cons,
    List.foldl_nil, String.reduceEq, reduceIte, ite_add_shift]
  ring

lemma dictGet_dictRemove_self (d : Dict) (k : String) :
    dictGet (dictRemove d k) k = Option.none := by
  induction d with
  | nil => rfl
  | cons p rest ih =>
    by_cases hp : p.1 = k
    · simpa [dictRemove, List.filter_cons, hp] using ih
    · simpa [dictRemove, List.filter_cons, hp, dictGet] using ih

lemma dictGet_dictRemove_ne (d : Dict) (k f : String) (h : f ≠ k) :
    dictGet (dictRemove d k) f = dictGet d f := by
  induction d with
  | nil => rfl
  | cons p rest ih =>
    by_cases hp : p.1 = k
    · simpa [dictRemove, List.filter_cons, hp, dictGet, Ne.symm h] using ih
    · by_cases hf : p.1 = f
      · simp [dictRemove, List.filter_cons, hp, dictGet, hf, h]
      · simpa [dictRemove, List.filter_cons, hp, dictGet, hf] using ih

/-- C3: `is_ready_to_qualify` returns True iff the fact set's
`visitor_email` is present (not None) and completeness is at least 0.6;
the message count has no influence on the result, and a fact set whose
email is null is never ready, whatever the completeness. -/
theorem is_ready_to_qualify_iff (c : ℚ) (D : Dict) (n : Nat) :
    (is_ready_to_qualify c D n = true ↔
      getD D "visitor_email" ≠ PyVal.none ∧ 0.6 ≤ c) ∧
    (∀ m, is_ready_to_qualify c D n = is_ready_to_qualify c D m) ∧
    (getD D "visitor_email" = PyVal.none →
      is_ready_to_qualify c D n = false) := by
  refine ⟨?_, fun m => rfl, fun he => by simp [is_ready_to_qualify, he]⟩
  by_cases he : getD D "visitor_email" = PyVal.none
  · simp [is_ready_to_qualify, he]
  · by_cases hc : c < 0.6
    · simp only [is_ready_to_qualify]
      simp [he, hc]
    · simp only [is_ready_to_qualify]
      simp [he, hc, not_lt.mp hc]

/-- Witness for C3 at a concrete ready fact set. -/
theorem is_ready_to_qualify_iff_wit :
    is_ready_to_qualify 1 [("visitor_email", PyVal.str "a@b.c")] 2 = true :=
  ((is_ready_to_qualify_iff 1 [("visitor_email", PyVal.str "a@b.c")] 2).1).mpr
    ⟨by decide, by norm_num⟩

/-- C4: the completeness score is the sum of the weights of the present
fields (non-null scalars; a non-empty list for `pain_points`), clamped
above at 1, with the fixed weight table of the source, and always lies in
the unit interval. -/
theorem calculate_completeness_spec (D : Dict)
    (hp : painOKcompleteness D = true) :
    calculate_completeness D =
      min ((if presentField D "team_size" then (0.30 : ℚ) else 0) +
        (if presentField D "current_solution" then (0.25 : ℚ) else 0) +
        (if painNonempty D then (0.20 : ℚ) else 0) +
        (if presentField D "visitor_email" then (0.15 : ℚ) else 0) +
        (if presentField D "company" then (0.10 : ℚ) else 0) +
        (if presentField D "visitor_name" then (0.10 : ℚ) else 0) +
        (if presentField D "role" then (0.025 : ℚ) else 0) +
        (if presentField D "budget_indication" then (0.025 : ℚ) else 0)) 1 ∧
    0 ≤ calculate_completeness D ∧ calculate_completeness D ≤ 1 := by
  have hpain : ((getD D "pain_points").truthy = true ∧
      0 < (pyLen (getD D "pain_points")).getD 0) ↔ painNonempty D := by
    unfold painOKcompleteness at hp
    unfold painNonempty
    cases hv : getD D "pain_points" <;> rw [hv] at hp <;>
      simp_all [PyVal.truthy, pyLen, List.isEmpty_iff, List.length_pos]
  have hraw : completeness_raw D =
      (if presentField D "team_size" then (0.30 : ℚ) else 0) +
      (if presentField D "current_solution" then (0.25 : ℚ) else 0) +
      (if painNonempty D then (0.20 : ℚ) else 0) +
      (if presentField D "visitor_email" then (0.15 : ℚ) else 0) +
      (if presentField D "company" then (0.10 : ℚ) else 0) +
      (if presentField D "visitor_name" then (0.10 : ℚ) else 0) +
      (if presentField D "role" then (0.025 : ℚ) else 0) +
      (if presentField D "budget_indication" then (0.025 : ℚ) else 0) := by
    rw [completeness_raw_expand]
    simp only [hpain, presentField]
    ring
  refine ⟨by rw [calculate_completeness, hraw], ?_, min_le_right _ _⟩
  unfold calculate_completeness
  refine le_min ?_ (by norm_num)
  rw [hraw]
  repeat' apply add_nonneg
  all_goals split_ifs <;> norm_num

/-- Witness for C4 at a concrete fact set. -/
theorem calculate_completeness_spec_wit :
    painOKcompleteness exC4 = true ∧
    (calculate_completeness exC4 =
      min ((if presentField exC4 "team_size" then (0.30 : ℚ) else 0) +
        (if presentField exC4 "current_solution" then (0.25 : ℚ) else 0) +
        (if painNonempty exC4 then (0.20 : ℚ) else 0) +
        (if presentField exC4 "visitor_email" then (0.15 : ℚ) else 0) +
        (if presentField exC4 "company" then (0.10 : ℚ) else 0) +
        (if presentField exC4 "visitor_name" then (0.10 : ℚ) else 0) +
        (if presentField exC4 "role" then (0.025 : ℚ) else 0) +
        (if presentField exC4 "budget_indication" then (0.025 : ℚ) else 0)) 1 ∧
      0 ≤ calculate_completeness exC4 ∧ calculate_completeness exC4 ≤ 1) :=
  ⟨by decide, calculate_completeness_spec exC4 (by decide)⟩

/-- C10: an empty-string email passes the readiness gate's
`is not None` check (so with completeness at least 0.6 the session is
ready whatever the message count), and contributes its 0.15 weight to the
completeness score: completeness of `D` equals the capped raw score of `D`
without its email entry plus 0.15. -/
theorem empty_string_email_counts (D : Dict) (c : ℚ) (n : Nat)
    (he : dictGet D "visitor_email" = some (PyVal.str ""))
    (hp : painOKcompleteness D = true) :
    (0.6 ≤ c → is_ready_to_qualify c D n = true) ∧
    calculate_completeness D =
      min (completeness_raw (dictRemove D "visitor_email") + 0.15) 1 := by
  have hgd : getD D "visitor_email" = PyVal.str "" := by simp [getD, he]
  constructor
  · intro hc
    simp only [is_ready_to_qualify]
    simp [hgd, not_lt.mpr hc]
  · unfold calculate_completeness
    congr 1
    rw [completeness_raw_expand, completeness_raw_expand]
    have h1 : ∀ f, f ≠ "visitor_email" →
        getD (dictRemove D "visitor_email") f = getD D f := by
      intro f hf
      simp [getD, dictGet_dictRemove_ne D _ f hf]
    have h2 : getD (dictRemove D "visitor_email") "visitor_email" =
        PyVal.none := by
      simp [getD, dictGet_dictRemove_self]
    rw [h1 "team_size" (by decide), h1 "current_solution" (by decide),
      h1 "pain_points" (by decide), h1 "company" (by decide),
      h1 "visitor_name" (by decide), h1 "role" (by decide),
      h1 "budget_indication" (by decide), h2, hgd]
    have e1 : (if PyVal.str "" ≠ PyVal.none then (0.15 : ℚ) else 0) = 0.15 :=
      if_pos (by simp)
    have e2 : (if PyVal.none ≠ PyVal.none then (0.15 : ℚ) else 0) = 0 :=
      if_neg (by simp)
    rw [e1, e2]
    ring

/-- Witness for C10 at a concrete fact set with an empty-string email. -/
theorem empty_string_email_counts_wit :
    dictGet exC10 "visitor_email" = some (PyVal.str "") ∧
    painOKcompleteness exC10 = true ∧
    ((0.6 ≤ (1 : ℚ) → is_ready_to_qualify 1 exC10 4 = true) ∧
      calculate_completeness exC10 =
        min (completeness_raw (dictRemove exC10 "visitor_email") + 0.15) 1) :=
  ⟨by decide, by decide, empty_string_email_counts exC10 1 4 (by decide) (by decide)⟩

/-- C8 counterexample: `determine_stage` tests `len(extracted_data) >= 3`,
the number of stored entries, not the number of populated fields.  A fact
set with three entries of which only two are populated (its `pain_points`
is the empty list) is routed to qualification, while the claim requires at
least 3 populated fields for that. -/
theorem determine_stage_counts_entries :
    determine_stage 2 exC8data exC8intent = "qualification" ∧
    populatedCount exC8data = 2 := by decide

/-- C8 (amended): the ordered rules of `determine_stage`, with the
qualification test reading the number of stored entries of the fact-set
mapping (`len(extracted_data)`), not the number of populated fields. -/
theorem determine_stage_rules (n : Nat) (D I : Dict) :
    (determine_stage n D I = "greeting" ↔ n = 1) ∧
    (determine_stage n D I = "qualification" ↔
      n ≠ 1 ∧ pqIntent I ∧ 3 ≤ D.length) ∧
    (determine_stage n D I = "engagement" ↔
      n ≠ 1 ∧ ¬pqIntent I ∧ getD I "intent" = PyVal.str "browsing") ∧
    (determine_stage n D I = "closing" ↔
      n ≠ 1 ∧ ¬pqIntent I ∧ getD I "intent" = PyVal.str "pricing") ∧
    (determine_stage n D I = "discovery" ↔
      n ≠ 1 ∧ ((pqIntent I ∧ D.length < 3) ∨
        (¬pqIntent I ∧ getD I "intent" ≠ PyVal.str "browsing" ∧
          getD I "intent" ≠ PyVal.str "pricing"))) := by
  unfold determine_stage pqIntent
  by_cases h1 : n = 1
  · simp [h1]
  · by_cases hq : getD I "intent" = PyVal.str "product_inquiry" ∨
        getD I "intent" = PyVal.str "problem_statement"
    · by_cases hD : D = []
      · subst hD
        rcases hq with h | h <;> simp [h, h1]
      · by_cases hlen : 3 ≤ D.length
        · rcases hq with h | h <;> simp [h, h1, hD, hlen]
        · have hlen2 : D.length < 3 := by omega
          rcases hq with h | h <;> simp [h, h1, hD, hlen, hlen2]
    · push_neg at hq
      by_cases hb : getD I "intent" = PyVal.str "browsing"
      · simp [hq.1, hq.2, hb, h1]
      · by_cases hp : getD I "intent" = PyVal.str "pricing"
        · simp [hq.1, hq.2, hb, hp, h1]
        · simp [hq.1, hq.2, hb, hp, h1]

/-- Witness for C8 (amended): first message is always a greeting. -/
theorem determine_stage_rules_wit : determine_stage 1 [] [] = "greeting" :=
  (determine_stage_rules 1 [] []).1.mpr rfl

lemma scoreLookup_budget (b : String) :
    scoreLookup budget_scores b = budgetPoints b := by
  by_cases h1 : b = "High"
  · subst h1
    decide
  by_cases h2 : b = "Medium"
  · subst h2
    decide
  by_cases h3 : b = "Low"
  · subst h3
    decide
  by_cases h4 : b = "Null"
  · subst h4
    decide
  have e1 : ("High" == b) = false := beq_eq_false_iff_ne.mpr (Ne.symm h1)
  have e2 : ("Medium" == b) = false := beq_eq_false_iff_ne.mpr (Ne.symm h2)
  have e3 : ("Low" == b) = false := beq_eq_false_iff_ne.mpr (Ne.symm h3)
  have e4 : ("Null" == b) = false := beq_eq_false_iff_ne.mpr (Ne.symm h4)
  simp [scoreLookup, budget_scores, budgetPoints, List.find?, e1, e2, e3, e4, h1, h2, h3, h4]

lemma scoreLookup_intent (i : String) :
    scoreLookup intent_scores i = intentPoints i := by
  by_cases h1 : i = "Buying"
  · subst h1
    decide
  by_cases h2 : i = "Researching"
  · subst h2
    decide
  by_cases h3 : i = "Browsing"
  · subst h3
    decide
  by_cases h4 : i = "Support"
  · subst h4
    decide
  have e1 : ("Buying" == i) = false := beq_eq_false_iff_ne.mpr (Ne.symm h1)
  have e2 : ("Researching" == i) = false := beq_eq_false_iff_ne.mpr (Ne.symm h2)
  have e3 : ("Browsing" == i) = false := beq_eq_false_iff_ne.mpr (Ne.symm h3)
  have e4 : ("Support" == i) = false := beq_eq_false_iff_ne.mpr (Ne.symm h4)
  simp [scoreLookup, intent_scores, intentPoints, List.find?, e1, e2, e3, e4, h1, h2, h3, h4]

lemma scoreLookup_sentiment (s : String) :
    scoreLookup sentiment_scores s = sentimentPoints s := by
  by_cases h1 : s = "Positive"
  · subst h1
    decide
  by_cases h2 : s = "Neutral"
  · subst h2
    decide
  by_cases h3 : s = "Frustrated"
  · subst h3
    decide
  by_cases h4 : s = "Negative"
  · subst h4
    decide
  have e1 : ("Positive" == s) = false := beq_eq_false_iff_ne.mpr (Ne.symm h1)
  have e2 : ("Neutral" == s) = false := beq_eq_false_iff_ne.mpr (Ne.symm h2)
  have e3 : ("Frustrated" == s) = false := beq_eq_false_iff_ne.mpr (Ne.symm h3)
  have e4 : ("Negative" == s) = false := beq_eq_false_iff_ne.mpr (Ne.symm h4)
  simp [scoreLookup, sentiment_scores, sentimentPoints, List.find?, e1, e2, e3, e4, h1, h2, h3, h4]

/-- C5: for any analysis result and visit count at least 1, the lead score
is the clamped additive total of the claim's point tables, the category is
Hot/Warm/Cold exactly on the 80 and 50 thresholds, and the priority
mirrors the category except that a Frustrated sentiment forces priority
High unconditionally. -/
theorem calculate_lead_score_spec (A : GroqAnalysisResult) (v : Int)
    (hv : 1 ≤ v) :
    (calculate_lead_score A v).score =
      min 100 (budgetPoints A.budget_signal + intentPoints A.intent +
        sentimentPoints A.sentiment +
        min (5 * (A.pain_points.length : Int)) 10 +
        min ((v - 1) * 5) 15) ∧
    ((calculate_lead_score A v).category = "Hot" ↔
      80 ≤ (calculate_lead_score A v).score) ∧
    ((calculate_lead_score A v).category = "Warm" ↔
      50 ≤ (calculate_lead_score A v).score ∧
        (calculate_lead_score A v).score < 80) ∧
    ((calculate_lead_score A v).category = "Cold" ↔
      (calculate_lead_score A v).score < 50) ∧
    (A.sentiment = "Frustrated" →
      (calculate_lead_score A v).priority = "High") ∧
    (A.sentiment ≠ "Frustrated" →
      (calculate_lead_score A v).priority =
        (if (calculate_lead_score A v).category = "Hot" then "High"
         else if (calculate_lead_score A v).category = "Warm" then "Medium"
         else "Low")) := by
  have hc : (calculate_lead_score A v).category =
      (if 80 ≤ (calculate_lead_score A v).score then "Hot"
       else if 50 ≤ (calculate_lead_score A v).score then "Warm"
       else "Cold") := rfl
  have hp : (calculate_lead_score A v).priority =
      (if A.sentiment = "Frustrated" then "High"
       else if 80 ≤ (calculate_lead_score A v).score then "High"
       else if 50 ≤ (calculate_lead_score A v).score then "Medium"
       else "Low") := rfl
  refine ⟨?_, ?_, ?_, ?_, ?_, ?_⟩
  · have hs : (calculate_lead_score A v).score =
        min (0 + scoreLookup budget_scores A.budget_signal +
          scoreLookup intent_scores A.intent +
          scoreLookup sentiment_scores A.sentiment +
          min ((A.pain_points.length : Int) * 5) 10 +
          min ((v - 1) * 5) 15) 100 := rfl
    rw [hs, scoreLookup_budget, scoreLookup_intent, scoreLookup_sentiment,
      min_comm, mul_comm ((A.pain_points.length : Int)) 5]
    ring_nf
  · rw [hc]
    generalize (calculate_lead_score A v).score = s
    split_ifs <;> simp_all
  · rw [hc]
    generalize (calculate_lead_score A v).score = s
    split_ifs <;> simp_all <;> omega
  · rw [hc]
    generalize (calculate_lead_score A v).score = s
    split_ifs <;> simp_all <;> omega
  · intro hf
    rw [hp, if_pos hf]
  · intro hf
    rw [hp, if_neg hf, hc]
    generalize (calculate_lead_score A v).score = s
    by_cases h80 : 80 ≤ s
    · simp [h80]
    · by_cases h50 : 50 ≤ s
      · simp [h80, h50]
      · simp [h80, h50]

/-- Witness for C5: the claim's concrete instance — budget High, intent
Buying, sentiment Frustrated, three pain points, five visits — scores 100,
category Hot, priority High. -/
theorem calculate_lead_score_spec_wit :
    (1 : Int) ≤ 5 ∧
    (calculate_lead_score exC5 5).score =
      min 100 (budgetPoints exC5.budget_signal + intentPoints exC5.intent +
        sentimentPoints exC5.sentiment +
        min (5 * (exC5.pain_points.length : Int)) 10 +
        min ((5 - 1) * 5) 15) ∧
    calculate_lead_score exC5 5 =
      { score := 100, category := "Hot", priority := "High" } :=
  ⟨by norm_num, (calculate_lead_score_spec exC5 5 (by norm_num)).1, by decide⟩

/-- C9: for every analysis result with the pydantic-validated literal
values (sentiment in {Positive, Neutral, Frustrated}, intent in {Buying,
Support, Browsing}, budget_signal in {High, Low, Null}) and every
non-negative visit count, including 0, the returned score lies in
[0, 100]. -/
theorem calculate_lead_score_range (A : GroqAnalysisResult) (v : Int)
    (hv : 0 ≤ v)
    (hsen : A.sentiment = "Positive" ∨ A.sentiment = "Neutral" ∨
      A.sentiment = "Frustrated")
    (hint : A.intent = "Buying" ∨ A.intent = "Support" ∨
      A.intent = "Browsing")
    (hbud : A.budget_signal = "High" ∨ A.budget_signal = "Low" ∨
      A.budget_signal = "Null") :
    0 ≤ (calculate_lead_score A v).score ∧
    (calculate_lead_score A v).score ≤ 100 := by
  have hs : (calculate_lead_score A v).score =
      min (0 + scoreLookup budget_scores A.budget_signal +
        scoreLookup intent_scores A.intent +
        scoreLookup sentiment_scores A.sentiment +
        min ((A.pain_points.length : Int) * 5) 10 +
        min ((v - 1) * 5) 15) 100 := rfl
  rw [hs, scoreLookup_budget, scoreLookup_intent, scoreLookup_sentiment]
  have hlen : (0 : Int) ≤ (A.pain_points.length : Int) := Int.ofNat_nonneg _
  rcases hsen with h | h | h <;> rcases hint with h2 | h2 | h2 <;>
    rcases hbud with h3 | h3 | h3 <;>
    simp [h, h2, h3, budgetPoints, intentPoints, sentimentPoints] <;>
    omega

/-- Witness for C9 at visit count 0 and the weakest valid signals. -/
theorem calculate_lead_score_range_wit :
    (0 : Int) ≤ 0 ∧
    (0 ≤ (calculate_lead_score exC9 0).score ∧
      (calculate_lead_score exC9 0).score ≤ 100) :=
  ⟨le_refl 0,
    calculate_lead_score_range exC9 0 (le_refl 0) (Or.inr (Or.inl rfl))
      (Or.inr (Or.inl rfl)) (Or.inr (Or.inr rfl))⟩

/-- C2: evaluation of the session-manager model.  A first-ever message
creates visit 1; a second message after a 40-minute gap (2400 s) behaves
as the claim says — the prior row is marked expired and a fresh visit-2
session with empty facts is created — but after a gap of 24 h 10 min
(87000 s) the source's `(utcnow() - last_message_time).seconds` wraps to
600 s = 10 min, so the stale session is continued with
`is_new_visit = False` instead of being expired, contradicting the claim
(and the method's own docstring) for gaps exceeding a day. -/
theorem get_or_create_session_day_wraparound :
    ((get_or_create_session [] "v1" "s1" Option.none 0 1).1.visit_number = 1 ∧
      (get_or_create_session [] "v1" "s1" Option.none 0 1).2.1 = true) ∧
    (let r := get_or_create_session [exSession] "v1" "s2" Option.none 2400 2
     r.2.1 = true ∧ r.1.visit_number = 2 ∧ r.1.extracted_data = [] ∧
       r.2.2 = [{ exSession with status := "expired" }, r.1]) ∧
    (let r := get_or_create_session [exSession] "v1" "s2" Option.none 87000 2
     r.2.1 = false ∧ r.1 = exSession ∧ r.2.2 = [exSession]) := by
  decide
